import Mathlib

/-!
Verification of the AI-Research-Hub backend pipeline.

This file gives a shallow embedding, in Lean 4, of the core of the
repository's Python backend:

* `src/backend/services/ollama_service.py` — analysis-response parsing and
  the analysis flow around the generation backend;
* `src/backend/services/research_service.py` — the two source adapters, the
  merge/dedup engine, the search aggregator, detail lookup and analysis
  orchestration;
* `src/backend/services/db_service.py` together with the `AnalyzedPaper`
  model of `src/backend/models/models.py` — idempotent persistence.

Python strings are embedded as `List Char` with hand-written, fully
computable counterparts of the string methods the code uses, so that every
definition evaluates inside the kernel.  Network and generation effects are
embedded as explicit environment data: an HTTP response is a value of
`HttpResult`, an exception raised by the transport is the `exn`
constructor, and a caught exception in the Python code corresponds to the
branch of the Lean definition that handles that constructor.  `async`
functions are embedded as pure functions of those environments; requests a
function issues are returned alongside its result where a claim is about
which endpoints get queried.
-/

namespace AIResearchHub

/-- Python strings, embedded as their character sequences. -/
abbrev Str := List Char

/-- Coerce a Lean string literal into the embedding. -/
def chars (s : String) : Str := s.toList

/-- Python `str.lower()` (ASCII case mapping, which covers every string the
repository's fixed header patterns and test inputs use). -/
def pyLower (s : Str) : Str := s.map Char.toLower

/-- Python `str.strip()`: remove leading and trailing whitespace. -/
def pyStrip (s : Str) : Str :=
  ((s.dropWhile Char.isWhitespace).reverse.dropWhile Char.isWhitespace).reverse

/-- Python `str.split(sep)` for a one-character separator: split on every
occurrence, keeping empty segments (so `"a\n\nb".split('\n')` has three
segments and a trailing separator yields a trailing empty segment). -/
def pySplitChar (sep : Char) : Str → List Str
  | [] => [[]]
  | c :: rest =>
    let r := pySplitChar sep rest
    if c = sep then [] :: r
    else
      match r with
      | [] => [[c]]
      | seg :: segs => (c :: seg) :: segs

/-- Python `pat in s` for strings: substring occurrence test. -/
def pyContains (s pat : Str) : Bool :=
  match s with
  | [] => pat.isEmpty
  | _ :: rest => pat.isPrefixOf s || pyContains rest pat

/-- Python `s.startswith(pat)`. -/
def pyStartswith (s pat : Str) : Bool := pat.isPrefixOf s

/-- Python `sep.join(parts)` for `sep = " "`. -/
def pyJoinSpace (parts : List Str) : Str := List.intercalate (chars " ") parts

/-- Python `s.replace(old, new)` (all occurrences, scanning left to right),
by fuel recursion on the length of the string; the repository only calls it
with the non-empty pattern `"semantic_scholar_"`. -/
def pyReplaceFuel (old new : Str) : Nat → Str → Str
  | 0, s => s
  | _ + 1, [] => []
  | fuel + 1, c :: rest =>
    if old ≠ [] ∧ old.isPrefixOf (c :: rest) then
      new ++ pyReplaceFuel old new fuel ((c :: rest).drop old.length)
    else
      c :: pyReplaceFuel old new fuel rest

/-- Python `s.replace(old, new)`. -/
def pyReplace (old new s : Str) : Str := pyReplaceFuel old new s.length s

/-- Python `s.split(sep)[-1]` (a split is never empty, so the default is
unreachable). -/
def pySplitLast (sep : Char) (s : Str) : Str := (pySplitChar sep s).getLastD []

/-!
## `ollama_service.py` — `_parse_analysis_response`

The parser walks the generated text line by line, tracking which of the
five analysis sections is current and the accumulated content lines of that
section, and rewrites the corresponding output field after every content
line.
-/

/-- The value of the Python local `current_section` when it is not `None`:
one of the five keys of the analysis dictionary. -/
inductive SectionTag where
  | summary
  | key_findings
  | methodology
  | applications
  | future_work
deriving DecidableEq

/-- The analysis dictionary built by `_parse_analysis_response`: scalar
fields `summary` and `methodology`, list fields `key_findings`,
`applications` and `future_work`. -/
structure Analysis where
  summary : Str
  key_findings : List Str
  methodology : Str
  applications : List Str
  future_work : List Str
deriving DecidableEq

/-- The initial analysis dictionary: every field at its empty default. -/
def emptyAnalysis : Analysis :=
  { summary := [], key_findings := [], methodology := [], applications := []
    future_work := [] }

/-- The header test of `_parse_analysis_response`: the `if`/`elif` chain
checking, in order, for `'summary'`, `'key findings'`, `'methodology'`,
`'applications'`, and `'future' and 'research'` as substrings of the
lower-cased line, each conjoined with `':' in line`. -/
def headerSection (line : Str) : Option SectionTag :=
  let lower_line := pyLower line
  if pyContains lower_line (chars "summary") && line.contains ':' then
    some .summary
  else if pyContains lower_line (chars "key findings") && line.contains ':' then
    some .key_findings
  else if pyContains lower_line (chars "methodology") && line.contains ':' then
    some .methodology
  else if pyContains lower_line (chars "applications") && line.contains ':' then
    some .applications
  else if pyContains lower_line (chars "future") && pyContains lower_line (chars "research")
      && line.contains ':' then
    some .future_work
  else
    none

/-- Writing `analysis[current_section]` after a content line: scalar
sections store the space-joined accumulator, list sections store the
accumulator itself. -/
def updateAnalysis (a : Analysis) (sec : SectionTag) (acc : List Str) : Analysis :=
  match sec with
  | .summary => { a with summary := pyJoinSpace acc }
  | .key_findings => { a with key_findings := acc }
  | .methodology => { a with methodology := pyJoinSpace acc }
  | .applications => { a with applications := acc }
  | .future_work => { a with future_work := acc }

/-- The loop state of `_parse_analysis_response`: `current_section`,
`current_text`, and the analysis dictionary being filled in. -/
structure ParseState where
  current : Option SectionTag
  acc : List Str
  analysis : Analysis
deriving DecidableEq

/-- One iteration of the `for line in response.split('\n')` loop:
strip the line, skip it when blank, switch section and reset the
accumulator on a header, otherwise (when a section is active) strip a
leading `"- "`, append to the accumulator and rewrite that section's
field; lines before any header leave the state unchanged. -/
def parseLine (st : ParseState) (raw : Str) : ParseState :=
  let line := pyStrip raw
  if line = [] then st
  else
    match headerSection line with
    | some sec => { st with current := some sec, acc := [] }
    | none =>
      match st.current with
      | none => st
      | some sec =>
        let content := if pyStartswith line (chars "- ") then line.drop 2 else line
        let acc := st.acc ++ [content]
        { current := some sec, acc := acc
          analysis := updateAnalysis st.analysis sec acc }

/-- `OllamaService._parse_analysis_response`.  The surrounding
`try`/`except` cannot fire on decoded text (every operation in the body is
total), so the embedding is the loop itself; the function is total by
construction, which is the embedded form of `never raises`. -/
def parseAnalysisResponse (response : Str) : Analysis :=
  ((pySplitChar '\n' response).foldl parseLine
    { current := none, acc := [], analysis := emptyAnalysis }).analysis

/-!
## `research_service.py` — data model and source adapters

The common paper dictionary produced by both adapters.  The Python value
under `"year"` is an integer, `None`, or a four-character string depending
on the source, so it is embedded as a small sum type; keys that only one
source emits (`pdf_url`, `paper_id`, `arxiv_id`) are `Option` fields.
-/

/-- The dynamic value stored under the `"year"` key of a paper dict. -/
inductive YearVal where
  | pynone
  | intVal (n : Int)
  | strVal (s : Str)
deriving DecidableEq

/-- The common paper record both adapters produce. -/
structure Paper where
  title : Str
  abstract : Str
  authors : List Str
  year : YearVal
  venue : Str
  url : Str
  pdf_url : Option Str
  citations : Int
  source : Str
  paper_id : Option Str
  arxiv_id : Option Str
  source_id : Str
deriving DecidableEq

/-- Python f-string interpolation of a value that may be `None`:
`f"{None}"` renders as the string `"None"`. -/
def pyFormatOpt : Option Str → Str
  | none => chars "None"
  | some s => s

/-- One JSON author object of a Semantic Scholar response; the `"name"`
key may be absent. -/
structure SSAuthor where
  name : Option Str
deriving DecidableEq

/-- One JSON paper object of a Semantic Scholar search response; every key
the adapter reads may be absent (`dict.get` supplies the default). -/
structure SSRawPaper where
  title : Option Str
  abstract : Option Str
  authors : Option (List SSAuthor)
  year : Option Int
  venue : Option Str
  url : Option Str
  citationCount : Option Int
  paperId : Option Str
deriving DecidableEq

/-- The per-paper transformation of `_search_semantic_scholar`: build the
common record, defaulting absent keys, and synthesize
`source_id = f"semantic_scholar_{paper.get('paperId')}"`. -/
def transformSSPaper (p : SSRawPaper) : Paper :=
  { title := p.title.getD []
    abstract := p.abstract.getD []
    authors := (p.authors.getD []).map (fun a => a.name.getD [])
    year := match p.year with
      | none => .pynone
      | some n => .intVal n
    venue := p.venue.getD []
    url := p.url.getD []
    pdf_url := none
    citations := p.citationCount.getD 0
    source := chars "Semantic Scholar"
    paper_id := p.paperId
    arxiv_id := none
    source_id := chars "semantic_scholar_" ++ pyFormatOpt p.paperId }

/-- One `<entry>` element of an arXiv Atom response, as the fields
`_parse_arxiv_response` reads.  `none` in an outer position means the
element (or its text) is missing, which makes the Python attribute access
raise and the entry be skipped; `primaryCategory`'s inner `Option` is the
`term` attribute, whose absence yields `''` via `Element.get`. -/
structure ArxivEntry where
  title : Option Str
  summary : Option Str
  authors : List (Option Str)
  published : Option Str
  idText : Option Str
  primaryCategory : Option (Option Str)
deriving DecidableEq

/-- The arXiv paper dictionary built by `_parse_arxiv_response` (it has no
`source_id` yet; callers add one). -/
structure ArxivPaper where
  title : Str
  abstract : Str
  authors : List Str
  year : Str
  venue : Str
  url : Str
  pdf_url : Str
  citations : Int
  source : Str
  arxiv_id : Str
deriving DecidableEq

/-- Python `s.replace('\n', ' ')`. -/
def pyReplaceChar (a b : Char) (s : Str) : Str :=
  s.map (fun c => if c = a then b else c)

/-- The per-entry body of `_parse_arxiv_response`: any missing field makes
the entry's `try` block raise and the entry be skipped (`none` here). -/
def parseArxivEntry (e : ArxivEntry) : Option ArxivPaper := do
  let titleText ← e.title
  let title := pyReplaceChar '\n' ' ' (pyStrip titleText)
  let abstractText ← e.summary
  let abstract := pyReplaceChar '\n' ' ' (pyStrip abstractText)
  let authorTexts ← e.authors.mapM id
  let authors := authorTexts.map pyStrip
  let publishedText ← e.published
  let published := publishedText.take 4
  let idText ← e.idText
  let arxiv_id := pySplitLast '/' idText
  let catAttr ← e.primaryCategory
  let primary_category := catAttr.getD []
  pure
    { title := title
      abstract := abstract
      authors := authors
      year := published
      venue := chars "arXiv - " ++ primary_category
      url := chars "https://arxiv.org/abs/" ++ arxiv_id
      pdf_url := chars "https://arxiv.org/pdf/" ++ arxiv_id ++ chars ".pdf"
      citations := 0
      source := chars "arXiv"
      arxiv_id := arxiv_id }

/-- `_parse_arxiv_response`: `none` input stands for text on which
`ET.fromstring` raises (caught, yielding `[]`); otherwise each entry is
parsed and entries whose parse raises are skipped. -/
def parseArxivResponse (xml : Option (List ArxivEntry)) : List ArxivPaper :=
  match xml with
  | none => []
  | some entries => entries.filterMap parseArxivEntry

/-- Lifting an arXiv paper dict into the common record once a `source_id`
has been attached to it. -/
def arxivPaperWithSourceId (sid : Str) (p : ArxivPaper) : Paper :=
  { title := p.title
    abstract := p.abstract
    authors := p.authors
    year := .strVal p.year
    venue := p.venue
    url := p.url
    pdf_url := some p.pdf_url
    citations := p.citations
    source := p.source
    paper_id := none
    arxiv_id := some p.arxiv_id
    source_id := sid }

/-- The outcome of one HTTP GET as the adapter code observes it: either
the transport raised, or a response with a status code and a body arrived. -/
inductive HttpResult (β : Type) where
  | exn
  | response (status : Nat) (body : β)
deriving DecidableEq

/-- The body of a Semantic Scholar response: either `response.json()`
raises, or it yields an object whose `"data"` key (a list of papers) may
be absent. -/
inductive SSBody where
  | badJson
  | json (data : Option (List SSRawPaper))
deriving DecidableEq

/-- `_search_semantic_scholar`, as a function of the observed HTTP
outcome: a raised transport or JSON error is caught by the adapter's
`except` and yields `[]`; a non-200 status yields `[]`; a 200 response is
transformed paper by paper. -/
def searchSemanticScholar (resp : HttpResult SSBody) : List Paper :=
  match resp with
  | .exn => []
  | .response status body =>
    if status = 200 then
      match body with
      | .badJson => []
      | .json data => (data.getD []).map transformSSPaper
    else []

/-- `_search_arxiv`, as a function of the observed HTTP outcome: a raised
transport error is caught and yields `[]`; a non-200 status yields `[]`;
a 200 response is parsed and each paper gets
`source_id = f"arxiv_{paper.get('arxiv_id')}"`. -/
def searchArxiv (resp : HttpResult (Option (List ArxivEntry))) : List Paper :=
  match resp with
  | .exn => []
  | .response status body =>
    if status = 200 then
      (parseArxivResponse body).map
        (fun p => arxivPaperWithSourceId (chars "arxiv_" ++ p.arxiv_id) p)
    else []

/-!
## `research_service.py` — `_merge_results`

The Python loop walks `i` over `range(max(len(A), len(B)))`, at each index
first offering `A[i]` and then `B[i]` to a seen-set filter on the
lower-cased title.  The embedding iterates the same number of times with a
structural counter, so that the definition computes inside the kernel.
-/

/-- The body shared by both halves of the loop: skip the paper when its
lower-cased title is empty or already seen, otherwise record the title and
emit the paper. -/
def dedupEmit (seen : List Str) (p : Paper) : List Str × List Paper :=
  let title := pyLower p.title
  if title = [] then (seen, [])
  else if seen.contains title then (seen, [])
  else (title :: seen, [p])

/-- The loop of `_merge_results`: `fuel` counts the iterations left of
`for i in range(max_len)`, `i` is the current index. -/
def mergeGo (A B : List Paper) : Nat → Nat → List Str → List Paper
  | 0, _, _ => []
  | fuel + 1, i, seen =>
    let s1 :=
      match A[i]? with
      | some p => dedupEmit seen p
      | none => (seen, [])
    let s2 :=
      match B[i]? with
      | some p => dedupEmit s1.1 p
      | none => (s1.1, [])
    s1.2 ++ (s2.2 ++ mergeGo A B fuel (i + 1) s2.1)

/-- `_merge_results`.  The surrounding `try`/`except` cannot fire (every
operation in the loop is total on dictionaries that, like every adapter
output, carry a string title), so the embedding is the loop itself. -/
def mergeResults (semantic_results arxiv_results : List Paper) : List Paper :=
  mergeGo semantic_results arxiv_results
    (max semantic_results.length arxiv_results.length) 0 []

/-!
Reference form of the merge, written from the specification's description
of the Merge/Dedup Engine: interleave the two sequences element by
element — `A0, B0, A1, B1, …` with the tail of the longer list appended —
then emit each record whose non-empty lower-cased title has not been seen.
-/

/-- Specification reference: the interleave order `A0, B0, A1, B1, …`. -/
def interleave : List Paper → List Paper → List Paper
  | [], bs => bs
  | a :: as, [] => a :: as
  | a :: as, b :: bs => a :: b :: interleave as bs

/-- Specification reference: one left-to-right pass of
case-insensitive-title deduplication, dropping empty titles. -/
def dedupSeq : List Str → List Paper → List Paper
  | _, [] => []
  | seen, p :: ps =>
    let se := dedupEmit seen p
    se.2 ++ dedupSeq se.1 ps

/-- Specification reference: interleave, then deduplicate. -/
def mergeSpec (A B : List Paper) : List Paper :=
  dedupSeq [] (interleave A B)

/-!
## `research_service.py` — `search_papers`

The aggregator fans out to the enabled adapters, merges, and wraps the
response.  The network is an explicit environment mapping the pagination
parameters an adapter sends to the HTTP outcome it observes; the requests
actually issued are returned next to the response so that claims about
which source is asked for how many records are statable.  The measured
wall-clock `duration` field has no counterpart in a pure embedding and is
omitted from the response record.
-/

/-- One adapter-level request issued during a search: which source, the
requested number of records, and the requested offset. -/
structure SourceRequest where
  source : Str
  limit : Nat
  offset : Int
deriving DecidableEq

/-- The network as `search_papers` can observe it. -/
structure SearchEnv where
  ssFetch : Nat → Int → HttpResult SSBody
  axFetch : Nat → Int → HttpResult (Option (List ArxivEntry))

/-- The dictionary `search_papers` returns (minus the wall-clock
`duration` entry). -/
structure SearchResponse where
  results : List Paper
  total : Nat
  page : Nat
  limit : Nat
  query : Str
  sources : List Str
deriving DecidableEq

/-- The default source set, also substituted for a falsy (empty or absent)
`sources` argument by `sources = sources or [...]`. -/
def defaultSources : List Str := [chars "semantic_scholar", chars "arxiv"]

/-- `search_papers`: compute `offset = (page - 1) * limit` and
`per_source_limit = limit * 2`, query each enabled source (a disabled
source contributes `[]` without a request), merge, and return the first
`limit` merged records with `total = len(combined) * (page + 1)`. -/
def searchPapers (env : SearchEnv) (query : Str) (page : Nat) (limit : Nat)
    (sources : Option (List Str)) : SearchResponse × List SourceRequest :=
  let offset : Int := ((page : Int) - 1) * (limit : Int)
  let per_source_limit := limit * 2
  let srcs :=
    match sources with
    | none => defaultSources
    | some l => if l.isEmpty then defaultSources else l
  let semantic_results :=
    if srcs.contains (chars "semantic_scholar") then
      searchSemanticScholar (env.ssFetch per_source_limit offset)
    else []
  let arxiv_results :=
    if srcs.contains (chars "arxiv") then
      searchArxiv (env.axFetch per_source_limit offset)
    else []
  let combined_results := mergeResults semantic_results arxiv_results
  let total_results := combined_results.length * (page + 1)
  ({ results := combined_results.take limit
     total := total_results
     page := page
     limit := limit
     query := query
     sources := srcs },
   (if srcs.contains (chars "semantic_scholar") then
      [{ source := chars "semantic_scholar", limit := per_source_limit, offset := offset }]
    else [])
   ++
   (if srcs.contains (chars "arxiv") then
      [{ source := chars "arxiv", limit := per_source_limit, offset := offset }]
    else []))

/-!
## `research_service.py` — `get_paper_details` and `analyze_paper`

The detail lookup issues at most one GET against the arXiv export API and
at most one against the Semantic Scholar graph API.  The environment maps
the looked-up id to the HTTP outcome of each endpoint; the list of queries
issued is returned next to the result.  Everything the body raises is
caught by the outer `except`, which returns `None`.
-/

/-- One detail-lookup request issued against a source API. -/
inductive SourceQuery where
  | arxiv (id : Str)
  | semanticScholar (id : Str)
deriving DecidableEq

/-- The network as `get_paper_details` can observe it: the outcome of
`GET {arxiv_url}?id_list={id}` and of `GET {semantic_scholar_url}/paper/{id}`.
A Semantic Scholar body of `none` stands for a 200 payload on which
`response.json()` raises. -/
structure DetailsEnv where
  arxivFetch : Str → HttpResult (Option (List ArxivEntry))
  ssFetch : Str → HttpResult (Option SSRawPaper)

/-- The id tried against Semantic Scholar:
`paper_id.replace("semantic_scholar_", "")` when the id carries that
prefix, the id itself otherwise. -/
def semanticLookupId (paper_id : Str) : Str :=
  if pyStartswith paper_id (chars "semantic_scholar_") then
    pyReplace (chars "semantic_scholar_") [] paper_id
  else paper_id

/-- The Semantic Scholar half of `get_paper_details`: build the common
record from the JSON object (the same field mapping as the search
adapter).  Returns the queries issued so far extended by this lookup. -/
def getDetailsSemanticScholar (env : DetailsEnv) (paper_id : Str)
    (prior : List SourceQuery) : Option Paper × List SourceQuery :=
  let semantic_id := semanticLookupId paper_id
  let queries := prior ++ [.semanticScholar semantic_id]
  match env.ssFetch semantic_id with
  | .exn => (none, queries)
  | .response status body =>
    if status = 200 then
      match body with
      | none => (none, queries)
      | some data => (some (transformSSPaper data), queries)
    else (none, queries)

/-- `get_paper_details`.  An id starting with `"arxiv:"` or `"arXiv:"` is
first looked up on arXiv (id taken as `paper_id.split(":")[-1]`); when
that yields a paper it is returned with
`source_id = f"arxiv_{arxiv_id}"`, and when it yields nothing the code
falls through to the Semantic Scholar lookup.  A transport error anywhere
is the outer `except` path: the result is `None` and no further source is
queried. -/
def getPaperDetails (env : DetailsEnv) (paper_id : Str) :
    Option Paper × List SourceQuery :=
  if pyStartswith paper_id (chars "arxiv:") || pyStartswith paper_id (chars "arXiv:") then
    match env.arxivFetch (pySplitLast ':' paper_id) with
    | .exn => (none, [SourceQuery.arxiv (pySplitLast ':' paper_id)])
    | .response status body =>
      if status = 200 then
        match parseArxivResponse body with
        | paper :: _ =>
          (some (arxivPaperWithSourceId
              (chars "arxiv_" ++ pySplitLast ':' paper_id) paper),
           [SourceQuery.arxiv (pySplitLast ':' paper_id)])
        | [] =>
          getDetailsSemanticScholar env paper_id
            [SourceQuery.arxiv (pySplitLast ':' paper_id)]
      else
        getDetailsSemanticScholar env paper_id
          [SourceQuery.arxiv (pySplitLast ':' paper_id)]
  else
    getDetailsSemanticScholar env paper_id []

/-!
## `ollama_service.py` — `analyze_paper`, and the orchestration in
`research_service.py`

The generation backend is an explicit outcome: either `ollama.generate`
raised (carrying the exception text) or it returned the generated text.
`OllamaService.analyze_paper` catches the raise and returns the error
dictionary `{"error": "Failed to analyze paper", "details": str(e)}`;
on success it returns the parsed analysis dictionary.
-/

/-- The outcome of the `ollama.generate` call. -/
inductive GenOutcome where
  | exn (msg : Str)
  | ok (text : Str)
deriving DecidableEq

/-- The dictionary returned by `OllamaService.analyze_paper`: the parsed
analysis, or the error dictionary built in its `except` branch. -/
inductive OllamaAnalysis where
  | success (a : Analysis)
  | failure (error details : Str)
deriving DecidableEq

/-- `OllamaService.analyze_paper` as a function of the generation
outcome.  (Prompt construction is deterministic and does not influence
which branch is taken, so the prompt is not materialized here.) -/
def ollamaAnalyzePaper (gen : GenOutcome) : OllamaAnalysis :=
  match gen with
  | .exn msg => .failure (chars "Failed to analyze paper") msg
  | .ok text => .success (parseAnalysisResponse text)

/-- The `paper_metadata` dictionary `ResearchService.analyze_paper` adds
to the analysis. -/
structure PaperMetadata where
  title : Str
  authors : List Str
  year : YearVal
  source : Str
deriving DecidableEq

/-- The dictionary `ResearchService.analyze_paper` returns on its normal
exit: either a parsed analysis or the error dictionary, in both cases
with `paper_metadata` attached. -/
inductive AnalyzeResult where
  | success (a : Analysis) (meta : PaperMetadata)
  | generationFailure (error details : Str) (meta : PaperMetadata)
deriving DecidableEq

/-- `ResearchService.analyze_paper`: resolve the paper via the detail
lookup, raise `ValueError(f"Paper not found: {paper_id}")` when nothing
resolves, otherwise run the Ollama analysis and attach the metadata.
The raise is embedded as `Except.error` carrying the exception message. -/
def researchAnalyzePaper (env : DetailsEnv) (gen : GenOutcome) (paper_id : Str) :
    Except Str AnalyzeResult :=
  match (getPaperDetails env paper_id).1 with
  | none => .error (chars "Paper not found: " ++ paper_id)
  | some paper =>
    let meta : PaperMetadata :=
      { title := paper.title, authors := paper.authors
        year := paper.year, source := paper.source }
    match ollamaAnalyzePaper gen with
    | .success a => .ok (.success a meta)
    | .failure e d => .ok (.generationFailure e d meta)

/-!
## `db_service.py` and the `AnalyzedPaper` model

The database is a list of rows plus an id sequence and a clock for the
`server_default=func.now()` timestamp.  `session.add` + `session.commit`
raises `IntegrityError` exactly when a constraint of the `analyzed_papers`
table is violated: `source_id` is NULL, `title` is NULL, or a row with the
same `source_id` already exists (the UNIQUE constraint).  On that error
the service rolls back (the embedding returns the unchanged database) and
returns the already-stored row.
-/

/-- The `paper_data` dictionary passed to `store_paper_analysis`; every
value is read with `dict.get`, so each may be absent (`none`). -/
structure PaperData where
  source_id : Option Str
  title : Option Str
  abstract : Option Str
  authors : Option (List Str)
  year : Option Int
  venue : Option Str
  url : Option Str
  citations : Option Int
  source : Option Str
deriving DecidableEq

/-- The `analysis_data` dictionary passed to `store_paper_analysis`. -/
structure AnalysisData where
  summary : Option Str
  key_findings : Option (List Str)
  methodology : Option Str
  applications : Option (List Str)
  future_work : Option (List Str)
deriving DecidableEq

/-- One row of the `analyzed_papers` table. -/
structure AnalyzedPaperRow where
  id : Nat
  source_id : Option Str
  title : Option Str
  abstract : Option Str
  authors : Option (List Str)
  year : Option Int
  venue : Option Str
  url : Option Str
  citations : Option Int
  source : Option Str
  summary : Option Str
  key_findings : Option (List Str)
  methodology : Option Str
  applications : Option (List Str)
  future_work : Option (List Str)
  created_at : Option Nat
  updated_at : Option Nat
deriving DecidableEq

/-- The nested `"analysis"` value of `AnalyzedPaper.to_dict`. -/
structure AnalysisDict where
  summary : Option Str
  key_findings : Option (List Str)
  methodology : Option Str
  applications : Option (List Str)
  future_work : Option (List Str)
deriving DecidableEq

/-- The dictionary `AnalyzedPaper.to_dict` returns (timestamps stand for
their `isoformat()` rendering, `None` when the column is NULL). -/
structure StoredDict where
  id : Nat
  source_id : Option Str
  title : Option Str
  abstract : Option Str
  authors : Option (List Str)
  year : Option Int
  venue : Option Str
  url : Option Str
  citations : Option Int
  source : Option Str
  analysis : AnalysisDict
  created_at : Option Nat
  updated_at : Option Nat
deriving DecidableEq

/-- `AnalyzedPaper.to_dict`. -/
def rowToDict (r : AnalyzedPaperRow) : StoredDict :=
  { id := r.id
    source_id := r.source_id
    title := r.title
    abstract := r.abstract
    authors := r.authors
    year := r.year
    venue := r.venue
    url := r.url
    citations := r.citations
    source := r.source
    analysis :=
      { summary := r.summary
        key_findings := r.key_findings
        methodology := r.methodology
        applications := r.applications
        future_work := r.future_work }
    created_at := r.created_at
    updated_at := r.updated_at }

/-- The database state: table contents, the primary-key sequence, and the
clock backing `func.now()`. -/
structure Db where
  rows : List AnalyzedPaperRow
  nextId : Nat
  now : Nat
deriving DecidableEq

/-- Whether `session.commit()` of a fresh `AnalyzedPaper` raises
`IntegrityError`: a NOT NULL column is `None` or the UNIQUE constraint
on `source_id` is hit. -/
def insertViolation (db : Db) (source_id title : Option Str) : Bool :=
  source_id.isNone || title.isNone ||
    db.rows.any (fun r => decide (r.source_id = source_id))

/-- `DatabaseService.get_paper_analysis`:
`query(AnalyzedPaper).filter_by(source_id=...).first()`. -/
def getPaperAnalysis (db : Db) (source_id : Option Str) : Option AnalyzedPaperRow :=
  db.rows.find? (fun r => decide (r.source_id = source_id))

/-- The `AnalyzedPaper(...)` constructor call of `store_paper_analysis`:
the row as it will stand after a successful commit (primary key from the
sequence, `created_at` from `func.now()`, `updated_at` still NULL). -/
def builtRow (db : Db) (paper_data : PaperData)
    (analysis_data : AnalysisData) : AnalyzedPaperRow :=
  { id := db.nextId
    source_id := paper_data.source_id
    title := paper_data.title
    abstract := paper_data.abstract
    authors := paper_data.authors
    year := paper_data.year
    venue := paper_data.venue
    url := paper_data.url
    citations := paper_data.citations
    source := paper_data.source
    summary := analysis_data.summary
    key_findings := analysis_data.key_findings
    methodology := analysis_data.methodology
    applications := analysis_data.applications
    future_work := analysis_data.future_work
    created_at := some db.now
    updated_at := none }

/-- `DatabaseService.store_paper_analysis`: build the row, try to insert
it; on `IntegrityError` roll back and return the existing row's dict; on
success return the new row's dict.  (The final catch-all `except`, which
maps any other storage error to `None`, concerns backend faults outside
this state model.) -/
def storePaperAnalysis (db : Db) (paper_data : PaperData)
    (analysis_data : AnalysisData) : Option StoredDict × Db :=
  if insertViolation db paper_data.source_id paper_data.title then
    match getPaperAnalysis db paper_data.source_id with
    | some existing => (some (rowToDict existing), db)
    | none => (none, db)
  else
    (some (rowToDict (builtRow db paper_data analysis_data)),
     { rows := db.rows ++ [builtRow db paper_data analysis_data]
       nextId := db.nextId + 1
       now := db.now + 1 })

/-!
## Auxiliary definitions used only by the theorem statements and their
concrete witnesses
-/

/-- The failure cases of the Semantic Scholar adapter named by the spec:
transport raised, non-success status, or unparseable JSON body. -/
def ssRequestFails : HttpResult SSBody → Prop
  | .exn => True
  | .response status body => status ≠ 200 ∨ body = .badJson

/-- The failure cases of the arXiv adapter named by the spec: transport
raised, non-success status, or an XML body `ET.fromstring` rejects. -/
def arxivRequestFails : HttpResult (Option (List ArxivEntry)) → Prop
  | .exn => True
  | .response status body => status ≠ 200 ∨ body = none

/-- The source set `search_papers` actually queries, as a function of the
caller's `sources` argument (the `sources or default` idiom). -/
def effectiveSources (sources : Option (List Str)) : List Str :=
  match sources with
  | none => defaultSources
  | some l => if l.isEmpty then defaultSources else l

/-- Spec-side header test, following §4.4 of the specification: the line
contains a colon and its lower-cased text matches one of the five fixed
patterns (checked in the order the specification lists them). -/
def specHeaderMatch (line : Str) : Option SectionTag :=
  if line.contains ':' then
    let lower := pyLower line
    if pyContains lower (chars "summary") then some .summary
    else if pyContains lower (chars "key findings") then some .key_findings
    else if pyContains lower (chars "methodology") then some .methodology
    else if pyContains lower (chars "applications") then some .applications
    else if pyContains lower (chars "future") && pyContains lower (chars "research") then
      some .future_work
    else none
  else none

/-- Spec-side transition of the section state machine on one non-blank
(already stripped) line. -/
def specParseLine (st : ParseState) (line : Str) : ParseState :=
  match specHeaderMatch line with
  | some sec => { st with current := some sec, acc := [] }
  | none =>
    match st.current with
    | none => st
    | some sec =>
      let content := if pyStartswith line (chars "- ") then line.drop 2 else line
      let acc := st.acc ++ [content]
      { current := some sec, acc := acc
        analysis := updateAnalysis st.analysis sec acc }

/-- Spec-side parser: strip each line, drop blank lines, and run the
section state machine over the remainder. -/
def parseSpecMachine (text : Str) : Analysis :=
  ((((pySplitChar '\n' text).map pyStrip).filter (fun l => !l.isEmpty)).foldl
    specParseLine { current := none, acc := [], analysis := emptyAnalysis }).analysis

/-- A synthetic record carrying only a title and a source id, as in the
specification's merge test vectors. -/
def mkTitled (t sid : String) : Paper :=
  { title := chars t
    abstract := []
    authors := []
    year := .pynone
    venue := []
    url := []
    pdf_url := none
    citations := 0
    source := []
    paper_id := none
    arxiv_id := none
    source_id := chars sid }

/-- A detail-lookup environment in which the arXiv export API answers 200
with an empty feed and Semantic Scholar answers 200 with an unparseable
body; used to exhibit the fall-through query. -/
def fallthroughEnv : DetailsEnv :=
  { arxivFetch := fun _ => .response 200 (some [])
    ssFetch := fun _ => .response 200 none }

/-- A detail-lookup environment whose every transport call raises. -/
def transportDownEnv : DetailsEnv :=
  { arxivFetch := fun _ => .exn
    ssFetch := fun _ => .exn }

/-- A detail-lookup environment in which both sources answer but neither
has the paper: arXiv returns an empty feed, Semantic Scholar a 404. -/
def notFoundEnv : DetailsEnv :=
  { arxivFetch := fun _ => .response 200 (some [])
    ssFetch := fun _ => .response 404 none }

/-- A concrete Semantic Scholar JSON paper used by witnesses. -/
def exRaw : SSRawPaper :=
  { title := some (chars "Attention Is All You Need")
    abstract := some (chars "An abstract.")
    authors := some [{ name := some (chars "A. Vaswani") }]
    year := some 2017
    venue := some (chars "NeurIPS")
    url := some (chars "https://example.org/p")
    citationCount := some 1000
    paperId := some (chars "abc123") }

/-- A detail-lookup environment in which Semantic Scholar resolves every
id to `exRaw`. -/
def exEnv : DetailsEnv :=
  { arxivFetch := fun _ => .exn
    ssFetch := fun _ => .response 200 (some exRaw) }

/-- A concrete arXiv feed entry used by witnesses. -/
def exEntry : ArxivEntry :=
  { title := some (chars "A Paper")
    summary := some (chars "Its abstract.")
    authors := [some (chars "B. Author")]
    published := some (chars "2024-01-02T00:00:00Z")
    idText := some (chars "http://arxiv.org/abs/2401.00077v1")
    primaryCategory := some (some (chars "cs.LG")) }

/-- A detail-lookup environment in which the arXiv export API resolves
every id to the feed `[exEntry]`. -/
def arxivHitEnv : DetailsEnv :=
  { arxivFetch := fun _ => .response 200 (some [exEntry])
    ssFetch := fun _ => .response 200 (some exRaw) }

/-- An empty database used by the persistence witness. -/
def wDb : Db := { rows := [], nextId := 1, now := 0 }

/-- A concrete paper payload used by the persistence witness. -/
def wPaper : PaperData :=
  { source_id := some (chars "arxiv_2401.00077")
    title := some (chars "A Paper")
    abstract := some (chars "Its abstract.")
    authors := some [chars "B. Author"]
    year := some 2024
    venue := some (chars "arXiv - cs.LG")
    url := some (chars "https://arxiv.org/abs/2401.00077")
    citations := some 0
    source := some (chars "arXiv") }

/-- A first analysis payload used by the persistence witness. -/
def wAnalysis1 : AnalysisData :=
  { summary := some (chars "first summary")
    key_findings := some [chars "finding one"]
    methodology := some (chars "method one")
    applications := some []
    future_work := some [] }

/-- A second, different analysis payload used by the persistence witness. -/
def wAnalysis2 : AnalysisData :=
  { summary := some (chars "second summary")
    key_findings := some [chars "finding two"]
    methodology := some (chars "method two")
    applications := some []
    future_work := some [] }

/-!
## Lemmas about the merge engine
-/

theorem interleave_nil_right (as : List Paper) : interleave as [] = as := by
  cases as <;> rfl

theorem mem_interleave {q : Paper} :
    ∀ (A B : List Paper), q ∈ interleave A B → q ∈ A ∨ q ∈ B := by
  intro A
  induction A with
  | nil =>
    intro B h
    rw [interleave] at h
    exact Or.inr h
  | cons a as ih =>
    intro B h
    cases B with
    | nil =>
      rw [interleave] at h
      exact Or.inl h
    | cons b bs =>
      rw [interleave] at h
      rcases List.mem_cons.mp h with hqa | h
      · exact Or.inl (hqa ▸ List.mem_cons_self _ _)
      rcases List.mem_cons.mp h with hqb | h
      · exact Or.inr (hqb ▸ List.mem_cons_self _ _)
      rcases ih bs h with ha | hb
      · exact Or.inl (List.mem_cons_of_mem _ ha)
      · exact Or.inr (List.mem_cons_of_mem _ hb)

theorem mergeGo_eq_dedupSeq (A B : List Paper) :
    ∀ (fuel i : Nat) (seen : List Str), max A.length B.length ≤ i + fuel →
      mergeGo A B fuel i seen = dedupSeq seen (interleave (A.drop i) (B.drop i)) := by
  intro fuel
  induction fuel with
  | zero =>
    intro i seen h
    have hA : A.length ≤ i := by omega
    have hB : B.length ≤ i := by omega
    rw [List.drop_eq_nil_of_le hA, List.drop_eq_nil_of_le hB]
    rfl
  | succ fuel ih =>
    intro i seen h
    by_cases hA : i < A.length
    · by_cases hB : i < B.length
      · rw [List.drop_eq_getElem_cons hA, List.drop_eq_getElem_cons hB]
        rw [mergeGo, List.getElem?_eq_getElem hA, List.getElem?_eq_getElem hB]
        rw [interleave, dedupSeq, dedupSeq]
        rw [ih (i + 1) _ (by omega)]
      · have hB' : B.length ≤ i := le_of_not_lt hB
        rw [List.drop_eq_getElem_cons hA, List.drop_eq_nil_of_le hB']
        rw [mergeGo, List.getElem?_eq_getElem hA,
          List.getElem?_eq_none (l := B) hB']
        rw [interleave_nil_right, dedupSeq]
        rw [ih (i + 1) _ (by omega)]
        rw [List.drop_eq_nil_of_le (by omega : B.length ≤ i + 1),
          interleave_nil_right]
        simp
    · have hA' : A.length ≤ i := le_of_not_lt hA
      by_cases hB : i < B.length
      · rw [List.drop_eq_nil_of_le hA', List.drop_eq_getElem_cons hB]
        rw [mergeGo, List.getElem?_eq_none (l := A) hA',
          List.getElem?_eq_getElem hB]
        rw [interleave, dedupSeq]
        rw [ih (i + 1) _ (by omega)]
        rw [List.drop_eq_nil_of_le (by omega : A.length ≤ i + 1), interleave]
        simp
      · have hB' : B.length ≤ i := le_of_not_lt hB
        rw [mergeGo, List.getElem?_eq_none (l := A) hA',
          List.getElem?_eq_none (l := B) hB']
        rw [List.drop_eq_nil_of_le hA', List.drop_eq_nil_of_le hB']
        rw [ih (i + 1) _ (by omega)]
        rw [List.drop_eq_nil_of_le (by omega : A.length ≤ i + 1),
          List.drop_eq_nil_of_le (by omega : B.length ≤ i + 1)]
        simp [interleave, dedupSeq]

/-- The code's merge and the reference interleave-with-dedup coincide. -/
theorem mergeResults_eq_mergeSpec (A B : List Paper) :
    mergeResults A B = mergeSpec A B := by
  rw [mergeResults, mergeSpec, mergeGo_eq_dedupSeq A B _ 0 [] (by omega)]
  rfl

theorem dedupSeq_mem_prop {q : Paper} :
    ∀ (l : List Paper) (seen : List Str), q ∈ dedupSeq seen l →
      q ∈ l ∧ pyLower q.title ≠ [] ∧ seen.contains (pyLower q.title) = false := by
  intro l
  induction l with
  | nil =>
    intro seen h
    rw [dedupSeq] at h
    cases h
  | cons p ps ih =>
    intro seen h
    rw [dedupSeq] at h
    by_cases h1 : pyLower p.title = []
    · rw [dedupEmit, if_pos h1] at h
      simp only [List.nil_append] at h
      obtain ⟨hm, hne, hc⟩ := ih seen h
      exact ⟨List.mem_cons_of_mem _ hm, hne, hc⟩
    · by_cases h2 : seen.contains (pyLower p.title) = true
      · rw [dedupEmit, if_neg h1, if_pos h2] at h
        simp only [List.nil_append] at h
        obtain ⟨hm, hne, hc⟩ := ih seen h
        exact ⟨List.mem_cons_of_mem _ hm, hne, hc⟩
      · rw [dedupEmit, if_neg h1, if_neg h2] at h
        simp only [List.singleton_append] at h
        rcases List.mem_cons.mp h with hqp | h
        · subst hqp
          exact ⟨List.mem_cons_self _ _, h1, Bool.not_eq_true _ ▸ h2⟩
        · obtain ⟨hm, hne, hc⟩ := ih _ h
          refine ⟨List.mem_cons_of_mem _ hm, hne, ?_⟩
          rw [List.contains_cons] at hc
          exact (Bool.or_eq_false_iff.mp hc).2

theorem dedupSeq_pairwise :
    ∀ (l : List Paper) (seen : List Str),
      (dedupSeq seen l).Pairwise (fun p q => pyLower p.title ≠ pyLower q.title) := by
  intro l
  induction l with
  | nil => intro seen; rw [dedupSeq]; exact List.Pairwise.nil
  | cons p ps ih =>
    intro seen
    rw [dedupSeq]
    by_cases h1 : pyLower p.title = []
    · rw [dedupEmit, if_pos h1]
      simpa using ih seen
    · by_cases h2 : seen.contains (pyLower p.title) = true
      · rw [dedupEmit, if_neg h1, if_pos h2]
        simpa using ih seen
      · rw [dedupEmit, if_neg h1, if_neg h2]
        simp only [List.singleton_append]
        refine List.Pairwise.cons ?_ (ih _)
        intro q hq
        have hc := (dedupSeq_mem_prop _ _ hq).2.2
        rw [List.contains_cons] at hc
        have := (Bool.or_eq_false_iff.mp hc).1
        intro heq
        rw [heq] at this
        simp at this

/-!
## Lemmas about the adapters
-/

theorem searchSemanticScholar_source_id {p : Paper} (resp : HttpResult SSBody)
    (h : p ∈ searchSemanticScholar resp) :
    ∃ s, p.source_id = chars "semantic_scholar_" ++ s := by
  cases resp with
  | exn => simp [searchSemanticScholar] at h
  | response status body =>
    by_cases hs : status = 200
    · cases body with
      | badJson => simp [searchSemanticScholar, hs] at h
      | json data =>
        simp only [searchSemanticScholar, hs, if_true, List.mem_map] at h
        obtain ⟨raw, _, hp⟩ := h
        exact ⟨pyFormatOpt raw.paperId, by rw [← hp]; rfl⟩
    · simp [searchSemanticScholar, hs] at h

theorem searchArxiv_source_id {p : Paper}
    (resp : HttpResult (Option (List ArxivEntry))) (h : p ∈ searchArxiv resp) :
    ∃ s, p.source_id = chars "arxiv_" ++ s := by
  cases resp with
  | exn => simp [searchArxiv] at h
  | response status body =>
    by_cases hs : status = 200
    · simp only [searchArxiv, hs, if_true, List.mem_map] at h
      obtain ⟨ap, _, hp⟩ := h
      exact ⟨ap.arxiv_id, by rw [← hp]; rfl⟩
    · simp [searchArxiv, hs] at h

theorem chars_append_ne_nil {pre : String} (h : chars pre ≠ []) (s : Str) :
    chars pre ++ s ≠ [] := by
  intro hc
  exact h (List.append_eq_nil.mp hc).1

/-!
## Lemmas about the analysis-response parser
-/

theorem headerSection_eq_specHeaderMatch (line : Str) :
    headerSection line = specHeaderMatch line := by
  rw [headerSection, specHeaderMatch]
  cases hc : line.contains ':' <;> simp [hc]

theorem parseLine_eq (st : ParseState) (raw : Str) :
    parseLine st raw =
      if pyStrip raw = [] then st else specParseLine st (pyStrip raw) := by
  by_cases h : pyStrip raw = [] <;>
    simp [parseLine, specParseLine, h, headerSection_eq_specHeaderMatch]

theorem foldl_parseLine_eq (lines : List Str) :
    ∀ st : ParseState,
      lines.foldl parseLine st =
        ((lines.map pyStrip).filter (fun l => !l.isEmpty)).foldl specParseLine st := by
  induction lines with
  | nil => intro st; rfl
  | cons raw rest ih =>
    intro st
    rw [List.foldl_cons, List.map_cons, List.filter_cons, parseLine_eq]
    by_cases h : pyStrip raw = []
    · simp [h, ih]
    · simp [h, ih]

theorem parseAnalysisResponse_eq_spec (text : Str) :
    parseAnalysisResponse text = parseSpecMachine text := by
  rw [parseAnalysisResponse, parseSpecMachine, foldl_parseLine_eq]

theorem foldl_parseLine_no_header :
    ∀ (lines : List Str), (∀ l ∈ lines, headerSection (pyStrip l) = none) →
      ∀ (acc0 : List Str) (a0 : Analysis),
        lines.foldl parseLine { current := none, acc := acc0, analysis := a0 }
          = { current := none, acc := acc0, analysis := a0 } := by
  intro lines
  induction lines with
  | nil => intro _ acc0 a0; rfl
  | cons raw rest ih =>
    intro h acc0 a0
    rw [List.foldl_cons]
    have hstep :
        parseLine { current := none, acc := acc0, analysis := a0 } raw
          = { current := none, acc := acc0, analysis := a0 } := by
      rw [parseLine]
      by_cases hb : pyStrip raw = []
      · simp [hb]
      · simp [hb, h raw (List.mem_cons_self _ _)]
    rw [hstep]
    exact ih (fun l hl => h l (List.mem_cons_of_mem _ hl)) acc0 a0

/-!
## A shared page-invariant lemma for the aggregator
-/

theorem merged_page_invariants (A B : List Paper) (limit : Nat)
    (hA : ∀ p ∈ A, p.source_id ≠ []) (hB : ∀ p ∈ B, p.source_id ≠ []) :
    ((mergeResults A B).take limit).length ≤ limit ∧
    (∀ p ∈ (mergeResults A B).take limit, p.title ≠ [] ∧ p.source_id ≠ []) ∧
    ((mergeResults A B).take limit).Pairwise
      (fun p q => pyLower p.title ≠ pyLower q.title) := by
  refine ⟨?_, ?_, ?_⟩
  · rw [List.length_take]
    exact min_le_left _ _
  · intro p hp
    have hm := List.mem_of_mem_take hp
    rw [mergeResults_eq_mergeSpec, mergeSpec] at hm
    obtain ⟨hmem, hne, _⟩ := dedupSeq_mem_prop _ _ hm
    refine ⟨?_, ?_⟩
    · intro ht
      apply hne
      rw [ht]
      rfl
    · rcases mem_interleave _ _ hmem with hin | hin
      · exact hA p hin
      · exact hB p hin
  · refine List.Pairwise.sublist (List.take_sublist _ _) ?_
    rw [mergeResults_eq_mergeSpec, mergeSpec]
    exact dedupSeq_pairwise _ _

/-!
## Claim theorems
-/

/-- Claim C1: `_merge_results` equals the reference interleave-with-dedup
algorithm — for every pair of input lists it emits, walking both lists in
the interleaved index order, exactly the records whose non-empty
lower-cased title has not been seen; in particular two all-distinct
two-element lists merge to `[a0, b0, a1, b1]`, and a case-insensitive
title collision keeps the first-seen record and drops later ones. -/
theorem merge_matches_reference_interleave_dedup :
    (∀ A B : List Paper, mergeResults A B = mergeSpec A B) ∧
    mergeResults [mkTitled "t0" "a0", mkTitled "t1" "a1"]
        [mkTitled "t2" "b0", mkTitled "t3" "b1"]
      = [mkTitled "t0" "a0", mkTitled "t2" "b0",
         mkTitled "t1" "a1", mkTitled "t3" "b1"] ∧
    mergeResults [mkTitled "X" "a0"] [mkTitled "x" "b0", mkTitled "Y" "b1"]
      = [mkTitled "X" "a0", mkTitled "Y" "b1"] := by
  refine ⟨mergeResults_eq_mergeSpec, by decide, by decide⟩

/-- Claim C2: every page `search_papers` returns holds at most `limit`
records, each with a non-empty title and a non-empty `source_id`, and no
two of them share a case-insensitive title. -/
theorem search_page_bounded_and_wellformed (env : SearchEnv) (query : Str)
    (page limit : Nat) (sources : Option (List Str)) :
    ((searchPapers env query page limit sources).1.results.length ≤ limit) ∧
    (∀ p ∈ (searchPapers env query page limit sources).1.results,
      p.title ≠ [] ∧ p.source_id ≠ []) ∧
    ((searchPapers env query page limit sources).1.results.Pairwise
      (fun p q => pyLower p.title ≠ pyLower q.title)) := by
  have hA : ∀ p ∈
      (if (effectiveSources sources).contains (chars "semantic_scholar") then
        searchSemanticScholar
          (env.ssFetch (limit * 2) (((page : Int) - 1) * (limit : Int)))
      else []), p.source_id ≠ [] := by
    intro p hp
    by_cases hc : (effectiveSources sources).contains (chars "semantic_scholar")
    · rw [if_pos hc] at hp
      obtain ⟨s, hs⟩ := searchSemanticScholar_source_id _ hp
      rw [hs]
      exact chars_append_ne_nil (by decide) s
    · rw [if_neg hc] at hp
      cases hp
  have hB : ∀ p ∈
      (if (effectiveSources sources).contains (chars "arxiv") then
        searchArxiv (env.axFetch (limit * 2) (((page : Int) - 1) * (limit : Int)))
      else []), p.source_id ≠ [] := by
    intro p hp
    by_cases hc : (effectiveSources sources).contains (chars "arxiv")
    · rw [if_pos hc] at hp
      obtain ⟨s, hs⟩ := searchArxiv_source_id _ hp
      rw [hs]
      exact chars_append_ne_nil (by decide) s
    · rw [if_neg hc] at hp
      cases hp
  exact merged_page_invariants _ _ limit hA hB

/-- Claim C4: `_parse_analysis_response` is the specified single-pass
line-oriented section state machine, and on the reference input
`"Summary:\nThis paper is great.\nKey Findings:\n- A\n- B\n"` it yields
`summary = "This paper is great."`, `key_findings = ["A", "B"]` and every
other field empty. -/
theorem parser_is_section_state_machine :
    (∀ text : Str, parseAnalysisResponse text = parseSpecMachine text) ∧
    parseAnalysisResponse
        (chars "Summary:\nThis paper is great.\nKey Findings:\n- A\n- B\n")
      = { summary := chars "This paper is great."
          key_findings := [chars "A", chars "B"]
          methodology := []
          applications := []
          future_work := [] } :=
  ⟨parseAnalysisResponse_eq_spec, by decide⟩

/-- Claim C5: the parser is total, and on text in which no line matches a
recognized section header it returns the analysis with every field at its
empty default. -/
theorem parser_no_header_all_defaults (text : Str)
    (h : ∀ l ∈ pySplitChar '\n' text, headerSection (pyStrip l) = none) :
    parseAnalysisResponse text = emptyAnalysis := by
  rw [parseAnalysisResponse, foldl_parseLine_no_header _ h]

/-- Witness for C5 at a concrete header-free text. -/
theorem parser_no_header_all_defaults_witness :
    (∀ l ∈ pySplitChar '\n' (chars "hello world\nno headers here"),
      headerSection (pyStrip l) = none) ∧
    parseAnalysisResponse (chars "hello world\nno headers here") = emptyAnalysis :=
  ⟨by decide, parser_no_header_all_defaults _ (by decide)⟩

/-- Claim C8: each adapter's search reduces every transport failure,
non-success status, or response-parse failure to the empty record list
instead of letting it escape. -/
theorem adapters_degrade_failures_to_empty :
    (∀ resp : HttpResult SSBody, ssRequestFails resp →
      searchSemanticScholar resp = []) ∧
    (∀ resp : HttpResult (Option (List ArxivEntry)), arxivRequestFails resp →
      searchArxiv resp = []) := by
  constructor
  · intro resp h
    cases resp with
    | exn => rfl
    | response status body =>
      rcases h with hs | hb
      · simp [searchSemanticScholar, hs]
      · subst hb
        by_cases hs : status = 200 <;> simp [searchSemanticScholar, hs]
  · intro resp h
    cases resp with
    | exn => rfl
    | response status body =>
      rcases h with hs | hb
      · simp [searchArxiv, hs]
      · subst hb
        by_cases hs : status = 200 <;> simp [searchArxiv, hs, parseArxivResponse]

/-- Witness for C8: a raised Semantic Scholar transport call and an arXiv
500 both reduce to the empty list. -/
theorem adapters_degrade_failures_to_empty_witness :
    searchSemanticScholar .exn = [] ∧
    searchArxiv (.response 500 (some [exEntry])) = [] :=
  ⟨adapters_degrade_failures_to_empty.1 .exn (by rw [ssRequestFails]; trivial),
   adapters_degrade_failures_to_empty.2 (.response 500 (some [exEntry]))
     (by rw [arxivRequestFails]; exact Or.inl (by decide))⟩

/-- Claim C9: each enabled source is asked for `limit * 2` records at
offset `(page - 1) * limit`; the reported `total` is the merged,
deduplicated count times `page + 1`; and the returned page is the first
`limit` merged records, with no second application of the page offset. -/
theorem search_requests_total_and_trim (env : SearchEnv) (query : Str)
    (page limit : Nat) (sources : Option (List Str)) :
    (searchPapers env query page limit sources).2 =
      (if (effectiveSources sources).contains (chars "semantic_scholar") then
        [{ source := chars "semantic_scholar", limit := limit * 2
           offset := ((page : Int) - 1) * (limit : Int) }]
      else [])
      ++ (if (effectiveSources sources).contains (chars "arxiv") then
        [{ source := chars "arxiv", limit := limit * 2
           offset := ((page : Int) - 1) * (limit : Int) }]
      else []) ∧
    (searchPapers env query page limit sources).1.total =
      (mergeResults
        (if (effectiveSources sources).contains (chars "semantic_scholar") then
          searchSemanticScholar
            (env.ssFetch (limit * 2) (((page : Int) - 1) * (limit : Int)))
        else [])
        (if (effectiveSources sources).contains (chars "arxiv") then
          searchArxiv
            (env.axFetch (limit * 2) (((page : Int) - 1) * (limit : Int)))
        else [])).length * (page + 1) ∧
    (searchPapers env query page limit sources).1.results =
      (mergeResults
        (if (effectiveSources sources).contains (chars "semantic_scholar") then
          searchSemanticScholar
            (env.ssFetch (limit * 2) (((page : Int) - 1) * (limit : Int)))
        else [])
        (if (effectiveSources sources).contains (chars "arxiv") then
          searchArxiv
            (env.axFetch (limit * 2) (((page : Int) - 1) * (limit : Int)))
        else [])).take limit :=
  ⟨rfl, rfl, rfl⟩

/-!
## Lemmas about the detail lookup and the database
-/

theorem getDetailsSemanticScholar_queries (env : DetailsEnv) (paper_id : Str)
    (prior : List SourceQuery) :
    (getDetailsSemanticScholar env paper_id prior).2
      = prior ++ [.semanticScholar (semanticLookupId paper_id)] := by
  rw [getDetailsSemanticScholar]
  cases hf : env.ssFetch (semanticLookupId paper_id) with
  | exn => rfl
  | response status body =>
    by_cases hs : status = 200
    · cases body <;> simp [hs]
    · simp [hs]

theorem find?_append_of_none {α : Type} (p : α → Bool) (l1 l2 : List α)
    (h : ∀ a ∈ l1, p a = false) : (l1 ++ l2).find? p = l2.find? p := by
  induction l1 with
  | nil => rfl
  | cons a as ih =>
    rw [List.cons_append,
      List.find?_cons_of_neg _ (by simp [h a (List.mem_cons_self _ _)])]
    exact ih (fun b hb => h b (List.mem_cons_of_mem _ hb))

/-- Claim C3: storing is idempotent first-write-wins on `source_id` — the
first call inserts exactly one row and returns its dict; a second call
with the same `source_id` and a different payload hits the uniqueness
constraint, leaves the database unchanged, and returns the very same
stored row. -/
theorem store_first_write_wins (db : Db) (p1 p2 : PaperData)
    (a1 a2 : AnalysisData)
    (hsid : p1.source_id ≠ none) (htitle : p1.title ≠ none)
    (hsame : p2.source_id = p1.source_id)
    (hfresh : ∀ r ∈ db.rows, r.source_id ≠ p1.source_id) :
    (storePaperAnalysis db p1 a1).1 = some (rowToDict (builtRow db p1 a1)) ∧
    (storePaperAnalysis db p1 a1).2.rows = db.rows ++ [builtRow db p1 a1] ∧
    (storePaperAnalysis (storePaperAnalysis db p1 a1).2 p2 a2).1
      = (storePaperAnalysis db p1 a1).1 ∧
    (storePaperAnalysis (storePaperAnalysis db p1 a1).2 p2 a2).2
      = (storePaperAnalysis db p1 a1).2 := by
  have hs1 : p1.source_id.isNone = false := by
    cases hx : p1.source_id
    · exact absurd hx hsid
    · rfl
  have ht1 : p1.title.isNone = false := by
    cases hx : p1.title
    · exact absurd hx htitle
    · rfl
  have hany : db.rows.any (fun r => decide (r.source_id = p1.source_id)) = false := by
    rw [List.any_eq_false]
    intro r hr
    simpa using hfresh r hr
  have h1 : insertViolation db p1.source_id p1.title = false := by
    rw [insertViolation, hs1, ht1, hany]
    rfl
  have e1 : storePaperAnalysis db p1 a1
      = (some (rowToDict (builtRow db p1 a1)),
         { rows := db.rows ++ [builtRow db p1 a1]
           nextId := db.nextId + 1, now := db.now + 1 }) := by
    rw [storePaperAnalysis, h1]
    rfl
  have hv2 : insertViolation
      { rows := db.rows ++ [builtRow db p1 a1]
        nextId := db.nextId + 1, now := db.now + 1 : Db }
      p2.source_id p2.title = true := by
    rw [insertViolation]
    have : (db.rows ++ [builtRow db p1 a1]).any
        (fun r => decide (r.source_id = p2.source_id)) = true := by
      rw [List.any_append]
      have : (builtRow db p1 a1).source_id = p2.source_id := by
        rw [hsame]
        rfl
      simp [List.any_cons, this]
    simp [this]
  have hfind : getPaperAnalysis
      { rows := db.rows ++ [builtRow db p1 a1]
        nextId := db.nextId + 1, now := db.now + 1 : Db }
      p2.source_id = some (builtRow db p1 a1) := by
    rw [getPaperAnalysis]
    rw [find?_append_of_none _ _ _
      (fun r hr => by simpa [hsame] using hfresh r hr)]
    have : (builtRow db p1 a1).source_id = p2.source_id := by
      rw [hsame]
      rfl
    simp [List.find?_cons, this]
  have e2 : storePaperAnalysis
      { rows := db.rows ++ [builtRow db p1 a1]
        nextId := db.nextId + 1, now := db.now + 1 : Db } p2 a2
      = (some (rowToDict (builtRow db p1 a1)),
         { rows := db.rows ++ [builtRow db p1 a1]
           nextId := db.nextId + 1, now := db.now + 1 }) := by
    rw [storePaperAnalysis, hv2, hfind]
    rfl
  rw [e1]
  exact ⟨rfl, rfl, by rw [e2], by rw [e2]⟩

/-- Witness for C3 at a concrete empty database and two different
analysis payloads. -/
theorem store_first_write_wins_witness :
    ((wPaper.source_id ≠ none) ∧ (wPaper.title ≠ none) ∧
      (∀ r ∈ wDb.rows, r.source_id ≠ wPaper.source_id)) ∧
    ((storePaperAnalysis wDb wPaper wAnalysis1).1
        = some (rowToDict (builtRow wDb wPaper wAnalysis1)) ∧
      (storePaperAnalysis
          (storePaperAnalysis wDb wPaper wAnalysis1).2 wPaper wAnalysis2).1
        = (storePaperAnalysis wDb wPaper wAnalysis1).1) := by
  have h := store_first_write_wins wDb wPaper wPaper wAnalysis1 wAnalysis2
    (by decide) (by decide) rfl (by intro r hr; cases hr)
  exact ⟨⟨by decide, by decide, by intro r hr; cases hr⟩, h.1, h.2.2.1⟩

/-- Claim C6: when the paper resolves and the generation backend fails,
`analyze_paper` hands the failure on to its caller as an explicit
error-marked result — never as a value that looks like a successful
analysis. -/
theorem generation_failure_marked_in_result (env : DetailsEnv)
    (paper_id msg : Str) (paper : Paper)
    (hfound : (getPaperDetails env paper_id).1 = some paper) :
    researchAnalyzePaper env (.exn msg) paper_id
      = .ok (.generationFailure (chars "Failed to analyze paper") msg
          { title := paper.title, authors := paper.authors
            year := paper.year, source := paper.source }) ∧
    (∀ (a : Analysis) (meta : PaperMetadata),
      researchAnalyzePaper env (.exn msg) paper_id ≠ .ok (.success a meta)) := by
  have hres : researchAnalyzePaper env (.exn msg) paper_id
      = .ok (.generationFailure (chars "Failed to analyze paper") msg
          { title := paper.title, authors := paper.authors
            year := paper.year, source := paper.source }) := by
    rw [researchAnalyzePaper, hfound]
    rfl
  refine ⟨hres, ?_⟩
  intro a meta hc
  rw [hres] at hc
  simp at hc

/-- Witness for C6: a lookup that resolves, and a raised generation call
whose message is carried in the error-marked result. -/
theorem generation_failure_marked_in_result_witness :
    (getPaperDetails exEnv (chars "abc123")).1 = some (transformSSPaper exRaw) ∧
    researchAnalyzePaper exEnv (.exn (chars "connection refused")) (chars "abc123")
      = .ok (.generationFailure (chars "Failed to analyze paper")
          (chars "connection refused")
          { title := (transformSSPaper exRaw).title
            authors := (transformSSPaper exRaw).authors
            year := (transformSSPaper exRaw).year
            source := (transformSSPaper exRaw).source }) :=
  ⟨by decide,
   (generation_failure_marked_in_result exEnv (chars "abc123")
      (chars "connection refused") (transformSSPaper exRaw) (by decide)).1⟩

/-- Counterexample to claim C7 as stated: for the arXiv-prefixed id
`"arxiv:1234"`, when the arXiv export API answers 200 with an empty feed,
the lookup goes on to query the Semantic Scholar endpoint with that very
id — another source is queried for a source-prefixed id. -/
theorem arxiv_prefixed_lookup_also_queries_semantic_scholar :
    pyStartswith (chars "arxiv:1234") (chars "arxiv:") = true ∧
    (getPaperDetails fallthroughEnv (chars "arxiv:1234")).2
      = [.arxiv (chars "1234"), .semanticScholar (chars "arxiv:1234")] := by
  decide

/-- Claim C7 as amended: an arXiv-prefixed id is queried against arXiv
first, and the Semantic Scholar endpoint is additionally queried for that
id exactly when the arXiv call returns a response that yields no paper;
an id without an arXiv prefix is queried only against Semantic Scholar
(with any `semantic_scholar_` prefix stripped). -/
theorem detail_lookup_routing (env : DetailsEnv) (paper_id : Str) :
    ((pyStartswith paper_id (chars "arxiv:")
        || pyStartswith paper_id (chars "arXiv:")) = false →
      (getPaperDetails env paper_id).2
        = [.semanticScholar (semanticLookupId paper_id)]) ∧
    ((pyStartswith paper_id (chars "arxiv:")
        || pyStartswith paper_id (chars "arXiv:")) = true →
      (getPaperDetails env paper_id).2
        = match env.arxivFetch (pySplitLast ':' paper_id) with
          | .exn => [.arxiv (pySplitLast ':' paper_id)]
          | .response status body =>
            if status = 200 ∧ parseArxivResponse body ≠ [] then
              [.arxiv (pySplitLast ':' paper_id)]
            else
              [.arxiv (pySplitLast ':' paper_id),
               .semanticScholar (semanticLookupId paper_id)]) := by
  constructor
  · intro hno
    rw [getPaperDetails, hno]
    simpa using getDetailsSemanticScholar_queries env paper_id []
  · intro hyes
    rw [getPaperDetails, hyes, if_pos rfl]
    cases hf : env.arxivFetch (pySplitLast ':' paper_id) with
    | exn => rfl
    | response status body =>
      dsimp only
      by_cases hs : status = 200
      · subst hs
        rw [if_pos rfl]
        cases hp : parseArxivResponse body with
        | nil =>
          rw [if_neg (by simp)]
          simpa using getDetailsSemanticScholar_queries env paper_id _
        | cons q qs =>
          rw [if_pos ⟨rfl, by simp⟩]
      · rw [if_neg hs, if_neg (fun hand => hs hand.1)]
        simpa using getDetailsSemanticScholar_queries env paper_id _

/-- Witness for the amended C7: a plain id queries only Semantic Scholar;
an arXiv-prefixed id whose arXiv lookup yields a paper queries only
arXiv. -/
theorem detail_lookup_routing_witness :
    (getPaperDetails arxivHitEnv (chars "someid")).2
      = [.semanticScholar (chars "someid")] ∧
    (getPaperDetails arxivHitEnv (chars "arxiv:2401.00077v1")).2
      = [.arxiv (chars "2401.00077v1")] := by
  constructor
  · have h := (detail_lookup_routing arxivHitEnv (chars "someid")).1 (by decide)
    rw [h]
    decide
  · have h := (detail_lookup_routing arxivHitEnv (chars "arxiv:2401.00077v1")).2
      (by decide)
    rw [h]
    decide

/-- Claim C10: `get_paper_details` never raises — a transport failure is
absorbed to the absent result `None`, which is exactly what a genuine
miss produces, so `analyze_paper` raises its `Paper not found` error in
both situations alike. -/
theorem lookup_failure_indistinguishable_from_missing (paper_id : Str)
    (gen : GenOutcome) :
    (getPaperDetails transportDownEnv paper_id).1 = none ∧
    (getPaperDetails notFoundEnv paper_id).1 = none ∧
    researchAnalyzePaper transportDownEnv gen paper_id
      = .error (chars "Paper not found: " ++ paper_id) ∧
    researchAnalyzePaper notFoundEnv gen paper_id
      = .error (chars "Paper not found: " ++ paper_id) := by
  have h1 : (getPaperDetails transportDownEnv paper_id).1 = none := by
    rw [getPaperDetails]
    by_cases hp : (pyStartswith paper_id (chars "arxiv:")
        || pyStartswith paper_id (chars "arXiv:")) = true
    · rw [hp, if_pos rfl]
      rfl
    · rw [Bool.not_eq_true] at hp
      rw [hp, if_neg (by simp), getDetailsSemanticScholar]
      rfl
  have h2 : (getPaperDetails notFoundEnv paper_id).1 = none := by
    rw [getPaperDetails]
    by_cases hp : (pyStartswith paper_id (chars "arxiv:")
        || pyStartswith paper_id (chars "arXiv:")) = true
    · rw [hp, if_pos rfl]
      rfl
    · rw [Bool.not_eq_true] at hp
      rw [hp, if_neg (by simp), getDetailsSemanticScholar]
      rfl
  refine ⟨h1, h2, ?_, ?_⟩
  · rw [researchAnalyzePaper, h1]
  · rw [researchAnalyzePaper, h2]

end AIResearchHub
